import Mathlib

/-! # Verification of the arbitrage bot's trade-execution engine

Shallow embedding of the code in `trading.py`, `dex_utils.py` and `main.py`
of the Blockchain_arbitrage repository, together with theorems settling the
specification's claims.  Python floats are modelled exactly over `ℚ`,
machine integers over `Nat`/`Int`, byte strings over `List Nat`, and
exceptions over explicit `Option`/`Except` result channels. -/

namespace Arb

/-! ## Python numeric helpers -/

/-- Python `int(q)` truncates a float toward zero. -/
def pyTrunc (q : ℚ) : Int := if 0 ≤ q then ⌊q⌋ else ⌈q⌉

/-! ## Byte-level ABI helpers

`resilient_rpc_call` decodes Quoter-V2 revert payloads with
`eth_abi.decode(["uint256","uint160","uint32","uint256"], data)`.
We model byte strings as lists of byte values and ABI words as 32-byte
big-endian slices. -/

/-- Big-endian byte-list to natural number. -/
def bytesToNatBE (l : List Nat) : Nat := l.foldl (fun acc b => acc * 256 + b) 0

/-- `len`-byte big-endian encoding of `n % 256^len`. -/
def natToBytesBE : Nat → Nat → List Nat
  | 0, _ => []
  | len + 1, n => natToBytesBE len (n / 256) ++ [n % 256]

/-- One 32-byte ABI word. -/
def quoterWord (n : Nat) : List Nat := natToBytesBE 32 n

/-- `eth_abi.decode(["uint256","uint160","uint32","uint256"], ·)` on a buffer.
The zero-padding validation that eth_abi performs on the `uint160` and
`uint32` words is expressed by the equivalent value-range checks on their
big-endian 32-byte words; a buffer of the wrong size or a failed check is a
raised `DecodingError`, modelled as `none`. -/
def decodeQuoterPayload (data : List Nat) : Option (Nat × Nat × Nat × Nat) :=
  if data.length = 128 then
    let w0 := bytesToNatBE (data.take 32)
    let w1 := bytesToNatBE ((data.drop 32).take 32)
    let w2 := bytesToNatBE ((data.drop 64).take 32)
    let w3 := bytesToNatBE ((data.drop 96).take 32)
    if w1 < 2 ^ 160 ∧ w2 < 2 ^ 32 then some (w0, w1, w2, w3) else none
  else none

/-! ## `resilient_rpc_call` (trading.py lines 20-56)

Each attempt of the wrapped zero-argument callable is an element of an
outcome stream: a returned value, a `ContractLogicError` carrying an
optional `data` payload, or any other exception.  The payload, when present,
is the byte content of a `0x`-prefixed hex string (the form web3 puts in
`err.args[0]["data"]`), so Python's `len(payload)` is `2 * bytes + 2`. -/

inductive CallOutcome where
  | ok (v : Nat)
  | logicRevert (payload : Option (List Nat))
  | otherError
deriving DecidableEq

inductive RpcOutcome where
  | success (v : Nat)
  | exhausted
  | decodeError
deriving DecidableEq

/-- What one execution of `resilient_rpc_call` did: how many times the
callable ran, which back-off sleeps happened (in order), and the result. -/
structure RpcTrace where
  attemptsMade : Nat
  waits : List ℚ
  outcome : RpcOutcome
deriving DecidableEq

/-- Python `len(payload)` for the `0x`-prefixed hex string carrying `bs`. -/
def hexStrLen (bs : List Nat) : Nat := 2 * bs.length + 2

/-- `HexBytes(payload)[4:] if len(payload) % 32 else HexBytes(payload)`. -/
def revertDataBytes (bs : List Nat) : List Nat :=
  if hexStrLen bs % 32 ≠ 0 then bs.drop 4 else bs

/-- `data_bytes.ljust(32 * 4, b"\x00")`. -/
def ljust128 (l : List Nat) : List Nat := l ++ List.replicate (128 - l.length) 0

/-- The retry loop of `resilient_rpc_call`: `i` is the current attempt index,
the fuel is the number of attempts left out of `RPC_MAX_RETRIES`.  A wait of
`RPC_BACKOFF_FACTOR * 2 ^ i` happens after every failed attempt except the
last; exhausting the loop raises a fresh generic `Exception`. -/
def rpcGo (backoff : ℚ) (outcomes : Nat → CallOutcome) : Nat → Nat → RpcTrace
  | _, 0 => ⟨0, [], .exhausted⟩
  | i, fuel + 1 =>
    let retry : RpcTrace :=
      match fuel with
      | 0 => ⟨1, [], .exhausted⟩
      | _ + 1 =>
        let rest := rpcGo backoff outcomes (i + 1) fuel
        ⟨rest.attemptsMade + 1, backoff * 2 ^ i :: rest.waits, rest.outcome⟩
    match outcomes i with
    | .ok v => ⟨1, [], .success v⟩
    | .logicRevert payload =>
      match payload with
      | some bs =>
        if hexStrLen bs > 4 then
          match decodeQuoterPayload (ljust128 (revertDataBytes bs)) with
          | some t => ⟨1, [], .success t.1⟩
          | none => ⟨1, [], .decodeError⟩
        else retry
      | none => retry
    | .otherError => retry

/-- trading.py `resilient_rpc_call`. -/
def resilient_rpc_call (maxRetries : Nat) (backoff : ℚ)
    (outcomes : Nat → CallOutcome) : RpcTrace :=
  rpcGo backoff outcomes 0 maxRetries

/-- The geometric back-off schedule: `n` waits doubling from `backoff * 2 ^ i`. -/
def geomWaits (backoff : ℚ) : Nat → Nat → List ℚ
  | _, 0 => []
  | i, n + 1 => backoff * 2 ^ i :: geomWaits backoff (i + 1) n

/-- Attempt stream for the C1 counterexample: a payload-less contract-logic
revert on the first attempt, then a successful call. -/
def c1Outcomes : Nat → CallOutcome := fun i => if i = 0 then .logicRevert none else .ok 7

/-- Attempt stream on which every call raises a payload-less contract-logic
revert. -/
def c1AllRevert : Nat → CallOutcome := fun _ => .logicRevert none

/-- Attempt stream for the C2 witness: a revert carrying a selector plus the
ABI encoding of `(123, 45, 6, 789)`. -/
def c2Outcomes : Nat → CallOutcome := fun _ =>
  .logicRevert (some ([222, 1, 2, 3] ++
    (quoterWord 123 ++ (quoterWord 45 ++ (quoterWord 6 ++ quoterWord 789)))))

/-! ## Router directory (`dex_utils.find_router_info`)

A router descriptor as parsed from the `DEX_ROUTERS` configuration: Python
dict keys accessed with `.get` become `Option` fields.  The directory itself
is an insertion-ordered association list, like a Python dict. -/

structure RouterInfo where
  address : String
  version : Option Int := none
  typ : Option String := none
  factory : Option String := none
  quoter : Option String := none
deriving DecidableEq

/-- `info.get('version', 0)`, the sort key used by `find_router_info`. -/
def routerSortKey (info : RouterInfo) : Int := info.version.getD 0

/-- One step of a stable insertion sort: `x` (which precedes every element of
the list in the original order) is placed before the first element that
`goesBefore x` holds for.  With `goesBefore` a non-strict comparison this is
extensionally Python's stable `list.sort`. -/
def stableInsertBy {α : Type} (goesBefore : α → α → Bool) (x : α) : List α → List α
  | [] => [x]
  | h :: t => if goesBefore x h then x :: h :: t else h :: stableInsertBy goesBefore x t

def stableSortBy {α : Type} (goesBefore : α → α → Bool) : List α → List α
  | [] => []
  | x :: t => stableInsertBy goesBefore x (stableSortBy goesBefore t)

/-- `possible_matches.sort(key=lambda x: x.get('version', 0), reverse=True)`:
stable descending sort by version. -/
def sortRoutersByVersionDesc (l : List RouterInfo) : List RouterInfo :=
  stableSortBy (fun x h => routerSortKey h ≤ routerSortKey x) l

/-- Python `str.lower()` on one character (the identifiers at play are
ASCII). -/
def pyLowerChar (c : Char) : Char :=
  if 65 ≤ c.toNat ∧ c.toNat ≤ 90 then Char.ofNat (c.toNat + 32) else c

/-- Python `str.lower()`. -/
def pyLower (s : String) : String := ⟨s.data.map pyLowerChar⟩

def isPySpace (c : Char) : Bool := c == ' ' || c == '\t' || c == '\n' || c == '\r'

/-- Python `str.strip()`. -/
def pyStrip (s : String) : String :=
  ⟨((s.data.dropWhile isPySpace).reverse.dropWhile isPySpace).reverse⟩

/-- `dex_id.lower().strip()`. -/
def pyNormalizeId (s : String) : String := pyStrip (pyLower s)

/-- `key.replace('-', '_').split('_')[0]`: the first segment is exactly the
prefix of the key before its first underscore or hyphen (Python's `split`
on an absent separator returns the whole string as its single segment). -/
def firstKeySegment (key : String) : String :=
  ⟨key.data.takeWhile fun c => !(c == '_' || c == '-')⟩

/-- dex_utils.py `find_router_info`. -/
def find_router_info (dexId : String) (routers : List (String × RouterInfo)) :
    Option RouterInfo :=
  let d := pyNormalizeId dexId
  let possible := (routers.filter fun kv => d == kv.1 || d == firstKeySegment kv.1).map Prod.snd
  match possible with
  | [] => none
  | [m] => some m
  | _ => (sortRoutersByVersionDesc possible).head?

/-- The first element of a list attaining the numerically highest version
(earlier elements win ties). -/
def bestByVersionFirstSeen : List RouterInfo → Option RouterInfo
  | [] => none
  | h :: t =>
    match bestByVersionFirstSeen t with
    | none => some h
    | some b => if routerSortKey h < routerSortKey b then some b else some h

/-- The claim's resolution rule, stated on the identifier exactly as supplied:
an entry matches if the identifier equals its key or equals the first
underscore/hyphen-delimited segment of its key; no match yields nothing, and
among matches the numerically highest version wins with first-seen
tie-breaking. -/
def specResolve (venueId : String) (routers : List (String × RouterInfo)) :
    Option RouterInfo :=
  bestByVersionFirstSeen
    ((routers.filter fun kv => venueId == kv.1 || venueId == firstKeySegment kv.1).map Prod.snd)

/-- Directory for the C6 counterexample. -/
def c6Dir : List (String × RouterInfo) :=
  [("uniswap_v2", { address := "0xv2", version := some 2 })]

/-! ## V2-style quote preparation (`_prepare_uniswap_v2_swap`, trading.py 225-238) -/

structure V2SwapCall where
  amountIn : Nat
  amountOutMin : Int
  path : List Nat
  recipient : Nat
  deadline : Nat
deriving DecidableEq

structure V2PrepareResult where
  quotedPath : List Nat
  amountsOut : List Nat
  swap : V2SwapCall
deriving DecidableEq

/-- trading.py `_prepare_uniswap_v2_swap`.  `getAmountsOut` is the router's
constant-product quoting call for `(amount_in_wei, path)`; addresses are
160-bit naturals; `now` is `time.time()` at submission; `none` models the
IndexError raised by `amounts_out[-1]` on an empty quote result. -/
def prepare_uniswap_v2_swap (slippagePct : ℚ) (wallet now : Nat)
    (getAmountsOut : Nat → List Nat → List Nat)
    (amountIn : Nat) (path : List Nat) : Option V2PrepareResult :=
  let amounts := getAmountsOut amountIn path
  match amounts.getLast? with
  | none => none
  | some lastAmt =>
    let minOut : Int := pyTrunc ((lastAmt : ℚ) * (1 - slippagePct / 100))
    some ⟨path, amounts, ⟨amountIn, minOut, path, wallet, now + 300⟩⟩

/-- Quote oracle for the C7 witness. -/
def c7Oracle : Nat → List Nat → List Nat := fun amt _ => [amt, 997]

/-! ## V3-style pool selection (`_prepare_uniswap_v3_swap` step ①, trading.py 263-290) -/

/-- The on-chain state the pool-selection step reads: `getCode` is the
truthiness of `w3.eth.get_code`, `feeCall` the result of the provided pool's
`fee()` call through the resilient executor (`none` = the call raised and the
code falls back to the factory search), `getPool` the factory's
`getPool(token_in, token_out, fee)` with `0` for the zero address. -/
structure V3Chain where
  getCode : Nat → Bool
  feeCall : Nat → Option Nat
  getPool : Nat → Nat → Nat → Nat

/-- `FEE_TIERS = [500, 3000, 10000, 2500, 100]` (trading.py line 278). -/
def FEE_TIERS : List Nat := [500, 3000, 10000, 2500, 100]

/-- The provided-pool branch: a usable `pair_address` (non-empty, with
deployed code, fee confirmed) yields the pool directly. -/
def v3ProvidedPool (chain : V3Chain) (pairAddress : Option Nat) : Option (Nat × Nat) :=
  match pairAddress with
  | some pa =>
    if chain.getCode pa then
      match chain.feeCall pa with
      | some fee => some (fee, pa)
      | none => none
    else none
  | none => none

/-- Step ① of `_prepare_uniswap_v3_swap`: the chosen `(fee tier, pool)`.
With no usable provided pool, the factory is queried along `FEE_TIERS` and
the first fee tier whose returned address is non-zero and has code wins;
`none` models the `ValueError` raised when no live pool is found. -/
def v3SelectPool (chain : V3Chain) (tokenIn tokenOut : Nat) (pairAddress : Option Nat) :
    Option (Nat × Nat) :=
  match v3ProvidedPool chain pairAddress with
  | some r => some r
  | none =>
    FEE_TIERS.findSome? fun fee =>
      let addr := chain.getPool tokenIn tokenOut fee
      if addr ≠ 0 ∧ chain.getCode addr then some (fee, addr) else none

/-- The fee-tier order the claim asserts: 0.01%, 0.05%, 0.25%, 0.30%, 1%.
Modelled from the spec for comparison with the code's order. -/
def specClaimTierSelect (chain : V3Chain) (tokenIn tokenOut : Nat) : Option (Nat × Nat) :=
  ([100, 500, 2500, 3000, 10000] : List Nat).findSome? fun fee =>
    let addr := chain.getPool tokenIn tokenOut fee
    if addr ≠ 0 ∧ chain.getCode addr then some (fee, addr) else none

/-- Chain for the C8 counterexample: live pools at the 100 and 500 tiers. -/
def c8Chain : V3Chain where
  getCode := fun a => a == 10 || a == 11
  feeCall := fun _ => none
  getPool := fun _ _ fee => if fee == 100 then 10 else if fee == 500 then 11 else 0

/-- Chain for the C8 witness: a single live pool at the 2500 tier. -/
def c8WitnessChain : V3Chain where
  getCode := fun a => a == 21
  feeCall := fun _ => none
  getPool := fun _ _ fee => if fee == 2500 then 21 else 0

/-! ## Settlement verification (`_parse_receipt_for_amount_out`, trading.py 386-434)

Addresses are 160-bit naturals; `w3.to_checksum_address('0x' + topic.hex()[-40:])`
is the low 160 bits of the 32-byte topic.  A log's `data` section is its list
of 32-byte words, signed because V3 `Swap` amounts are `int256`. -/

/-- keccak256("Transfer(address,address,uint256)"). -/
def TRANSFER_EVENT_TOPIC : Nat :=
  0xddf252ad1be2c89b69c2b068fc378daa952ba7f163c4a11628f55a4df523b3ef

/-- keccak256 of the Uniswap-V3 pool `Swap` event signature. -/
def UNISWAP_V3_SWAP_TOPIC : Nat :=
  0xc42079f94a6350d7e6235f29174924f928cc2ac818eb64fed8004e115fbcca67

/-- keccak256 of the PancakeSwap-V3 pool `Swap` event signature (two extra
protocol-fee fields). -/
def PANCAKE_V3_SWAP_TOPIC : Nat :=
  0x19b47279256b2a23a1665c810c8d55a1758940ee09377d4f8d26497a3577dc83

def topicAddr (t : Nat) : Nat := t % 2 ^ 160

structure EvmLog where
  address : Nat
  topics : List Nat
  dataWords : List Int
deriving DecidableEq

structure Receipt where
  status : Nat
  logs : List EvmLog
deriving DecidableEq

/-- `'pancake' in s` (substring test). -/
def pyStrContains (hay needle : String) : Bool :=
  hay.data.tails.any fun t => needle.data.isPrefixOf t

/-- `_get_v3_pool_abi`: the `Swap` topic of the pool ABI chosen for `dex_name`. -/
def swapTopicFor (dexName : String) : Nat :=
  if pyStrContains (pyLower dexName) "pancake" then PANCAKE_V3_SWAP_TOPIC
  else UNISWAP_V3_SWAP_TOPIC

/-- The V3 branch of `_parse_receipt_for_amount_out` (trading.py 392-417):
infer the pool address from a base-currency `Transfer` log sent by the
wallet, then take the first `Swap` event of that pool whose recipient is the
wallet and whose `abs(min(amount0, amount1))` is non-zero (`process_receipt`
with `errors=DISCARD` skips logs that do not decode, modelled by the topic
and shape checks). -/
def parseV3SwapAmount (baseCurrency wallet swapTopic : Nat) (receipt : Receipt) : Nat :=
  match receipt.logs.findSome? (fun log =>
    if log.address = baseCurrency ∧ log.topics.length = 3 ∧
        log.topics.headD 0 = TRANSFER_EVENT_TOPIC ∧
        topicAddr (log.topics.getD 1 0) = wallet
    then some (topicAddr (log.topics.getD 2 0)) else none) with
  | none => 0
  | some poolAddress =>
    (receipt.logs.findSome? (fun log =>
      if log.address = poolAddress ∧ log.topics.headD 0 = swapTopic ∧
          log.topics.length = 3 ∧
          topicAddr (log.topics.getD 2 0) = wallet ∧
          0 < (min (log.dataWords.getD 0 0) (log.dataWords.getD 1 0)).natAbs
      then some (min (log.dataWords.getD 0 0) (log.dataWords.getD 1 0)).natAbs
      else none)).getD 0

/-- The generic fallback of `_parse_receipt_for_amount_out` (trading.py
420-432): the value of the first `Transfer` log of the output token whose
recipient is the wallet. -/
def parseTransferAmount (wallet targetToken : Nat) (receipt : Receipt) : Nat :=
  (receipt.logs.findSome? (fun log =>
    if log.topics.length = 3 ∧ log.topics.headD 0 = TRANSFER_EVENT_TOPIC ∧
        log.address = targetToken ∧ topicAddr (log.topics.getD 2 0) = wallet
    then some (log.dataWords.getD 0 0).toNat else none)).getD 0

/-- trading.py `_parse_receipt_for_amount_out`: the `Swap`-event path for
version-3 routers, with the generic `Transfer` scan as fallback. -/
def parse_receipt_for_amount_out (baseCurrency wallet : Nat) (routerVersion : Int)
    (dexName : String) (targetToken : Nat) (receipt : Receipt) : Nat :=
  let fromSwapEvent : Nat :=
    if routerVersion = 3 then
      parseV3SwapAmount baseCurrency wallet (swapTopicFor dexName) receipt
    else 0
  if fromSwapEvent = 0 then parseTransferAmount wallet targetToken receipt
  else fromSwapEvent

/-- The claim's hypothesis on a buy receipt: no `Transfer` event and no V3
`Swap` event (of either pool flavour) names `wallet` as recipient. -/
def noWalletCredit (wallet : Nat) (rcpt : Receipt) : Prop :=
  ∀ log ∈ rcpt.logs,
    (log.topics.headD 0 = TRANSFER_EVENT_TOPIC → log.topics.length = 3 →
      topicAddr (log.topics.getD 2 0) ≠ wallet) ∧
    (log.topics.headD 0 = UNISWAP_V3_SWAP_TOPIC ∨
        log.topics.headD 0 = PANCAKE_V3_SWAP_TOPIC → log.topics.length = 3 →
      topicAddr (log.topics.getD 2 0) ≠ wallet)

/-! ## Trade orchestrator (`execute_trade`, trading.py 437-583) -/

/-- The module-level configuration `execute_trade` reads.  `account` and
`BASE_CURRENCY_ADDRESS` may be unset (`None`), `TRADE_AMOUNT_BASE_TOKEN` is a
float. -/
structure TradeConfig where
  account : Option Nat
  baseCurrencyAddress : Option Nat
  tradeAmountBaseToken : ℚ
  maxGasLimit : Nat
  dexRouters : List (String × RouterInfo)

/-- A pool record handed in by the price feed.  Keys accessed with `[...]`
are `Option` fields (a missing key is a KeyError); `base_currency_price_usd`
is read with `.get(·, 0)`. -/
structure PoolRecord where
  dex : Option String
  liqUsd : Option ℚ
  pairAddress : Option Nat
  baseCurrencyPriceUsd : Option ℚ := none

/-- Everything the chain (through web3) answers during one `execute_trade`
run.  The fee- and nonce-fetch streams are indexed by how many fetches of
that kind have already happened, so "fetched fresh" is observable.
`buyPrepare`/`sellPrepare` abstract the quote-strategy call for the leg:
`some msg` means it raised.  `Except.error` on a receipt models a
send/wait failure (e.g. the 120 s timeout). -/
structure ChainWorld where
  baseDecimals : Nat
  walletBalanceWei : Nat
  targetDecimals : Nat
  chainId : Nat
  priorityFeeFetch : Nat → Nat
  baseFeeFetch : Nat → Nat
  nonceFetch : Nat → Nat
  buyPrepare : Option String
  sellPrepare : Option String
  buyReceiptRes : Except String Receipt
  sellReceiptRes : Except String Receipt

structure TxPayload where
  nonce : Nat
  maxFeePerGas : Nat
  maxPriorityFeePerGas : Nat
  chainId : Nat
  gas : Nat
deriving DecidableEq

/-- Externally visible actions of one `execute_trade` run, in order. -/
inductive Effect where
  | rpcRead (name : String)
  | prepareSwap (leg : String)
  | buildTx (leg : String) (payload : TxPayload)
  | submitTx (leg : String)
  | waitReceipt (leg : String)
deriving DecidableEq

inductive ExecOutcome where
  | normalReturn
  | uncaught (msg : String)
deriving DecidableEq

structure BodyResult where
  effects : List Effect
  buyPayload : Option TxPayload
  sellPayload : Option TxPayload
  raised : Option String
deriving DecidableEq

structure ExecResult where
  effects : List Effect
  buyPayload : Option TxPayload
  sellPayload : Option TxPayload
  outcome : ExecOutcome
deriving DecidableEq

/-- `LIQUIDITY_IMPACT_THRESHOLD = 0.1`. -/
def LIQUIDITY_IMPACT_THRESHOLD : ℚ := 1 / 10

/-- The quote-strategy dispatch shared by both legs (trading.py 497-507 and
547-557), exception channel: `'1inch'` routers go straight to the strategy;
version-2 and version-3 routers evaluate `pool['pairAddress']` as a call
argument (KeyError when missing) before entering the strategy; any other
version raises `NotImplementedError`.  `prep` is the strategy's own outcome. -/
def prepare_dispatch_raised (routerType : String) (version : Int)
    (pairAddress : Option Nat) (prep : Option String) : Option String :=
  if routerType = "1inch" then prep
  else if version = 2 ∨ version = 3 then
    match pairAddress with
    | none => some "KeyError"
    | some _ => prep
  else some "NotImplementedError"

/-- The same dispatch, effect channel: the strategy is invoked unless the
`pairAddress` lookup raised first or the version is unsupported. -/
def prepare_dispatch_effects (leg routerType : String) (version : Int)
    (pairAddress : Option Nat) : List Effect :=
  if routerType = "1inch" then [.prepareSwap leg]
  else if version = 2 ∨ version = 3 then
    match pairAddress with
    | none => []
    | some _ => [.prepareSwap leg]
  else []

/-- The try-block of trading.py `execute_trade` (lines 455-580).  `raised`
records an exception that the surrounding `except Exception` handler will
catch; the effect list records what happened before control left the block. -/
def execute_trade_body (cfg : TradeConfig) (w : ChainWorld)
    (buyPool sellPool : PoolRecord) (tokenAddress : Nat) (buyDexName : String)
    (buyInfo sellInfo : RouterInfo) : BodyResult :=
  let effs0 : List Effect := [.rpcRead "decimals", .rpcRead "balanceOf"]
  let amountInWei : Int := pyTrunc (cfg.tradeAmountBaseToken * (10 : ℚ) ^ w.baseDecimals)
  if (w.walletBalanceWei : Int) < amountInWei then ⟨effs0, none, none, none⟩
  else
    let tradeAmountUsd := cfg.tradeAmountBaseToken * (buyPool.baseCurrencyPriceUsd.getD 0)
    if tradeAmountUsd = 0 then ⟨effs0, none, none, none⟩
    else
      match buyPool.liqUsd with
      | none => ⟨effs0, none, none, some "KeyError"⟩
      | some buyLiq =>
        if tradeAmountUsd > buyLiq * LIQUIDITY_IMPACT_THRESHOLD then ⟨effs0, none, none, none⟩
        else
          match sellPool.liqUsd with
          | none => ⟨effs0, none, none, some "KeyError"⟩
          | some sellLiq =>
            if tradeAmountUsd > sellLiq * LIQUIDITY_IMPACT_THRESHOLD then
              ⟨effs0, none, none, none⟩
            else
              match buyInfo.version with
              | none => ⟨effs0, none, none, some "KeyError"⟩
              | some buyVersion =>
                let effs1 := effs0 ++ [.rpcRead "decimals", .rpcRead "chain_id",
                  .rpcRead "max_priority_fee", .rpcRead "get_block",
                  .rpcRead "get_transaction_count"]
                let maxPriorityFee := w.priorityFeeFetch 0
                let maxFeePerGas := w.baseFeeFetch 0 * 2 + maxPriorityFee
                let nonce := w.nonceFetch 0
                let routerType := buyInfo.typ.getD "uniswapv2"
                let prepEffs := prepare_dispatch_effects "buy" routerType buyVersion
                  buyPool.pairAddress
                match prepare_dispatch_raised routerType buyVersion buyPool.pairAddress
                    w.buyPrepare with
                | some e => ⟨effs1 ++ prepEffs, none, none, some e⟩
                | none =>
                  let buyPayload : TxPayload :=
                    ⟨nonce, maxFeePerGas, maxPriorityFee, w.chainId, cfg.maxGasLimit⟩
                  let effs2 := effs1 ++ prepEffs ++
                    [.buildTx "buy" buyPayload, .submitTx "buy", .waitReceipt "buy"]
                  match w.buyReceiptRes with
                  | .error e => ⟨effs2, some buyPayload, none, some e⟩
                  | .ok buyReceipt =>
                    if buyReceipt.status = 0 then ⟨effs2, some buyPayload, none, none⟩
                    else
                      let amountReceivedWei := parse_receipt_for_amount_out
                        (cfg.baseCurrencyAddress.getD 0) (cfg.account.getD 0) buyVersion
                        buyDexName tokenAddress buyReceipt
                      if amountReceivedWei = 0 then ⟨effs2, some buyPayload, none, none⟩
                      else
                        match sellInfo.version with
                        | none => ⟨effs2, some buyPayload, none, some "KeyError"⟩
                        | some sellVersion =>
                          let routerTypeSell := sellInfo.typ.getD "uniswapv2"
                          let effs3 := effs2 ++ [.rpcRead "get_transaction_count"]
                          let sellNonce := w.nonceFetch 1
                          let prepEffsS := prepare_dispatch_effects "sell" routerTypeSell
                            sellVersion sellPool.pairAddress
                          match prepare_dispatch_raised routerTypeSell sellVersion
                              sellPool.pairAddress w.sellPrepare with
                          | some e =>
                            ⟨effs3 ++ prepEffsS, some buyPayload, none, some e⟩
                          | none =>
                            let sellPayload : TxPayload :=
                              ⟨sellNonce, maxFeePerGas, maxPriorityFee, w.chainId,
                                cfg.maxGasLimit⟩
                            let effs4 := effs3 ++ prepEffsS ++
                              [.buildTx "sell" sellPayload, .submitTx "sell",
                                .waitReceipt "sell"]
                            match w.sellReceiptRes with
                            | .error e => ⟨effs4, some buyPayload, some sellPayload, some e⟩
                            | .ok _ => ⟨effs4, some buyPayload, some sellPayload, none⟩

/-- trading.py `execute_trade`.  Everything before the try-block: the
configuration guard, the `pool['dex']` accesses (whose KeyError is the only
exception not caught by a handler), and router resolution; the try-block's
exceptions are swallowed by `except Exception`, so every path through it
returns normally. -/
def execute_trade (cfg : TradeConfig) (w : ChainWorld) (buyPool sellPool : PoolRecord)
    (_spread : ℚ) (tokenAddress : Nat) : ExecResult :=
  if ¬ (cfg.account.isSome ∧ cfg.baseCurrencyAddress.isSome ∧
      0 < cfg.tradeAmountBaseToken) then ⟨[], none, none, .normalReturn⟩
  else
    match buyPool.dex with
    | none => ⟨[], none, none, .uncaught "KeyError"⟩
    | some buyDexName =>
      match sellPool.dex with
      | none => ⟨[], none, none, .uncaught "KeyError"⟩
      | some sellDexName =>
        match find_router_info buyDexName cfg.dexRouters,
            find_router_info sellDexName cfg.dexRouters with
        | some buyInfo, some sellInfo =>
          let r := execute_trade_body cfg w buyPool sellPool tokenAddress buyDexName
            buyInfo sellInfo
          ⟨r.effects, r.buyPayload, r.sellPayload, .normalReturn⟩
        | _, _ => ⟨[], none, none, .normalReturn⟩

/-- Does an effect belong to the sell leg? -/
def touchesSellLeg : Effect → Bool
  | .prepareSwap leg => leg == "sell"
  | .buildTx leg _ => leg == "sell"
  | .submitTx leg => leg == "sell"
  | .waitReceipt leg => leg == "sell"
  | .rpcRead _ => false

/-! ## Cooldown loop (`analyze_and_trade` / `execute_trade`, main.py 105-268)

main.py keeps its own simpler `find_router_info` (substring matching) and a
module-global `last_trade_attempt_ts`.  Successive `time.time()` readings
are passed explicitly: `tCheck` at the cooldown guard, `tStart` at the
timestamp write inside `execute_trade`. -/

structure MainConfig where
  account : Option Nat
  baseCurrencyAddress : Option Nat
  tradeAmountBaseToken : ℚ
  minLiquidityUsd : ℚ
  minSpreadPercent : ℚ
  dexRouters : List (String × RouterInfo)

/-- A record built by main.py's polling loop (lines 307-315); these keys are
always populated there. -/
structure MainPool where
  dex : String
  price : ℚ
  liqUsd : ℚ
deriving DecidableEq

/-- The only mutable state shared between evaluation calls. -/
structure BotState where
  lastTradeAttemptTs : ℚ
deriving DecidableEq

def TRADE_COOLDOWN_SECONDS : ℚ := 60

/-- main.py `find_router_info`: first entry with `dex_id in key or key in
dex_id`. -/
def main_find_router_info (dexId : String) (routers : List (String × RouterInfo)) :
    Option RouterInfo :=
  (routers.find? fun kv => pyStrContains kv.1 dexId || pyStrContains dexId kv.1).map Prod.snd

/-- main.py `execute_trade`, modelled up to the write of
`last_trade_attempt_ts` (line 125).  The try-block that follows performs the
trade but never touches the cooldown state, so it is omitted here; the Bool
reports whether the attempt started (i.e. line 125 was reached). -/
def main_execute_trade (cfg : MainConfig) (tStart : ℚ) (buyPool sellPool : MainPool)
    (st : BotState) : BotState × Bool :=
  if ¬ (cfg.account.isSome ∧ cfg.baseCurrencyAddress.isSome ∧
      0 < cfg.tradeAmountBaseToken) then (st, false)
  else
    match main_find_router_info buyPool.dex cfg.dexRouters,
        main_find_router_info sellPool.dex cfg.dexRouters with
    | some _, some _ => (⟨tStart⟩, true)
    | _, _ => (st, false)

/-- `liquid_pools.sort(key=lambda x: x['price'])`: stable ascending sort. -/
def sortPoolsByPrice (l : List MainPool) : List MainPool :=
  stableSortBy (fun x h => x.price ≤ h.price) l

/-- main.py `analyze_and_trade` (lines 251-268). -/
def analyze_and_trade (cfg : MainConfig) (tCheck tStart : ℚ) (pairs : List MainPool)
    (st : BotState) : BotState × Bool :=
  if tCheck - st.lastTradeAttemptTs < TRADE_COOLDOWN_SECONDS then (st, false)
  else
    let liquid := pairs.filter fun p => cfg.minLiquidityUsd ≤ p.liqUsd
    if liquid.length < 2 then (st, false)
    else
      let sorted := sortPoolsByPrice liquid
      let buyPool := sorted.headD ⟨"", 0, 0⟩
      let sellPool := sorted.getLastD ⟨"", 0, 0⟩
      let spread := (sellPool.price - buyPool.price) / buyPool.price * 100
      if cfg.minSpreadPercent ≤ spread then main_execute_trade cfg tStart buyPool sellPool st
      else (st, false)

/-- Fully configured setup for the C5 eligibility conjunct. -/
def c5Cfg : MainConfig where
  account := some 7
  baseCurrencyAddress := some 9
  tradeAmountBaseToken := 1
  minLiquidityUsd := 1000
  minSpreadPercent := 1
  dexRouters := [("alpha", { address := "0xa", version := some 2 }),
                 ("beta", { address := "0xb", version := some 2 })]

def c5Pairs : List MainPool :=
  [⟨"alpha", 1, 5000⟩, ⟨"beta", 2, 5000⟩]

/-! ## Concrete inputs for the `execute_trade` claims -/

def exCfg : TradeConfig where
  account := some 7
  baseCurrencyAddress := some 9
  tradeAmountBaseToken := 1
  maxGasLimit := 500000
  dexRouters := [("dexa", { address := "0xa", version := some 2 }),
                 ("dexb", { address := "0xb", version := some 2 })]

def exBuyPool : PoolRecord where
  dex := some "dexa"
  liqUsd := some 1000
  pairAddress := some 31
  baseCurrencyPriceUsd := some 1

def exSellPool : PoolRecord where
  dex := some "dexb"
  liqUsd := some 1000
  pairAddress := some 32
  baseCurrencyPriceUsd := some 1

/-- A buy receipt whose only log is a `Transfer` of 42 units of token 5 to
wallet 7. -/
def exBuyReceipt : Receipt where
  status := 1
  logs := [⟨5, [TRANSFER_EVENT_TOPIC, 31, 7], [42]⟩]

/-- A world in which both legs run to completion and in which the fee
streams change between fetches, so a reused fee value is distinguishable
from a freshly fetched one. -/
def exWorld : ChainWorld where
  baseDecimals := 0
  walletBalanceWei := 100
  targetDecimals := 0
  chainId := 8453
  priorityFeeFetch := fun i => if i = 0 then 10 else 99
  baseFeeFetch := fun i => if i = 0 then 100 else 7777
  nonceFetch := fun i => i
  buyPrepare := none
  sellPrepare := none
  buyReceiptRes := .ok exBuyReceipt
  sellReceiptRes := .ok ⟨1, []⟩

/-- A buy pool too small for the trade notional (C9): notional 50 USD
against 10% of 300 USD liquidity. -/
def c9BuyPool : PoolRecord where
  dex := some "dexa"
  liqUsd := some 300
  pairAddress := some 31
  baseCurrencyPriceUsd := some 50

/-- A buy receipt with no transfer or swap event crediting the wallet: the
only log is the wallet paying base currency 9 to the pool. -/
def c3Receipt : Receipt where
  status := 1
  logs := [⟨9, [TRANSFER_EVENT_TOPIC, 7, 31], [42]⟩]

def c3World : ChainWorld :=
  { exWorld with buyReceiptRes := .ok c3Receipt }

end Arb

namespace Arb

/-! ## Supporting lemmas for the byte-level ABI model -/

theorem bytesToNatBE_append_one (l : List Nat) (b : Nat) :
    bytesToNatBE (l ++ [b]) = bytesToNatBE l * 256 + b := by
  simp [bytesToNatBE, List.foldl_append]

theorem natToBytesBE_length (len n : Nat) : (natToBytesBE len n).length = len := by
  induction len generalizing n with
  | zero => simp [natToBytesBE]
  | succ k ih => simp [natToBytesBE, ih]

theorem bytesToNatBE_natToBytesBE (len n : Nat) :
    bytesToNatBE (natToBytesBE len n) = n % 256 ^ len := by
  induction len generalizing n with
  | zero => simp [natToBytesBE, bytesToNatBE, Nat.mod_one]
  | succ k ih =>
    rw [natToBytesBE, bytesToNatBE_append_one, ih, pow_succ, Nat.mul_comm (256 ^ k) 256,
      Nat.mod_mul]
    omega

theorem quoterWord_length (n : Nat) : (quoterWord n).length = 32 :=
  natToBytesBE_length 32 n

theorem bytesToNatBE_quoterWord (n : Nat) (h : n < 2 ^ 256) :
    bytesToNatBE (quoterWord n) = n := by
  have h256 : (256 : Nat) ^ 32 = 2 ^ 256 := by norm_num
  rw [quoterWord, bytesToNatBE_natToBytesBE, h256, Nat.mod_eq_of_lt h]

end Arb

namespace Arb

/-! ## The Resilient Call Executor: C1 and C2 -/

theorem rpcGo_all_revert_none (backoff : ℚ) (outcomes : Nat → CallOutcome)
    (h : ∀ j, outcomes j = .logicRevert none) :
    ∀ fuel i, rpcGo backoff outcomes i fuel =
      ⟨fuel, geomWaits backoff i (fuel - 1), .exhausted⟩ := by
  intro fuel
  induction fuel with
  | zero => intro i; simp [rpcGo, geomWaits]
  | succ f ih =>
    intro i
    simp only [rpcGo, h i]
    cases f with
    | zero => simp [geomWaits]
    | succ k => simp [ih (i + 1), geomWaits]

/-- C1 (corrected): trading.py's `resilient_rpc_call` does NOT fail
permanently on a payload-less contract-logic revert.  It treats such a
revert like any other failure: it waits the exponential back-off and retries,
and only after all `RPC_MAX_RETRIES` attempts raises a generic
retries-exhausted `Exception` (chained from the last error), not a dedicated
`LogicReverted` error.  Here: if every attempt raises a payload-less revert,
the callable runs `maxRetries` times with the doubling back-off schedule in
between, ending in the generic exhaustion failure. -/
theorem claim_C1 (maxRetries : Nat) (backoff : ℚ) (outcomes : Nat → CallOutcome)
    (h : ∀ j, outcomes j = .logicRevert none) :
    resilient_rpc_call maxRetries backoff outcomes =
      ⟨maxRetries, geomWaits backoff 0 (maxRetries - 1), .exhausted⟩ :=
  rpcGo_all_revert_none backoff outcomes h maxRetries 0

theorem claim_C1_witness :
    resilient_rpc_call 3 1 c1AllRevert = ⟨3, geomWaits 1 0 2, .exhausted⟩ :=
  claim_C1 3 1 c1AllRevert fun _ => rfl

/-- C1 counterexample: with two attempts allowed, a payload-less revert on
the first attempt is followed by a back-off wait of `0.5 * 2^0` and a second
attempt, which here even succeeds — the claim's "fails permanently, never
retried, no backoff wait" is false on the code. -/
theorem claim_C1_counterexample :
    resilient_rpc_call 2 (1 / 2) c1Outcomes = ⟨2, [1 / 2], .success 7⟩ := by
  norm_num [resilient_rpc_call, rpcGo, c1Outcomes]

theorem rpc_first_attempt_decodes (f : Nat) (backoff : ℚ) (outcomes : Nat → CallOutcome)
    (bs : List Nat) (t : Nat × Nat × Nat × Nat)
    (hout : outcomes 0 = .logicRevert (some bs))
    (hlen : hexStrLen bs > 4)
    (hdec : decodeQuoterPayload (ljust128 (revertDataBytes bs)) = some t) :
    resilient_rpc_call (f + 1) backoff outcomes = ⟨1, [], .success t.1⟩ := by
  unfold resilient_rpc_call
  simp only [rpcGo, hout, if_pos hlen, hdec]

end Arb

namespace Arb

theorem quoterEncoding_drop4 (sel rest : List Nat) (hsel : sel.length = 4) :
    (sel ++ rest).drop 4 = rest := by
  rw [← hsel, List.drop_left]

theorem decodeQuoterPayload_encoding (amountOut priceMarker ticksCrossed gasEstimate : Nat)
    (h0 : amountOut < 2 ^ 256) (h1 : priceMarker < 2 ^ 160) (h2 : ticksCrossed < 2 ^ 32) :
    decodeQuoterPayload (quoterWord amountOut ++ (quoterWord priceMarker ++
        (quoterWord ticksCrossed ++ quoterWord gasEstimate))) =
      some (amountOut, priceMarker, ticksCrossed,
        bytesToNatBE (quoterWord gasEstimate)) := by
  set enc := quoterWord amountOut ++ (quoterWord priceMarker ++
    (quoterWord ticksCrossed ++ quoterWord gasEstimate)) with henc
  have hencLen : enc.length = 128 := by
    simp [henc, quoterWord_length]
  have e0 : enc.take 32 = quoterWord amountOut := by
    rw [henc]; exact List.take_left' (quoterWord_length _)
  have e32 : enc.drop 32 = quoterWord priceMarker ++
      (quoterWord ticksCrossed ++ quoterWord gasEstimate) := by
    rw [henc]; exact List.drop_left' (quoterWord_length _)
  have e32t : (enc.drop 32).take 32 = quoterWord priceMarker := by
    rw [e32]; exact List.take_left' (quoterWord_length _)
  have e64 : enc.drop 64 = quoterWord ticksCrossed ++ quoterWord gasEstimate := by
    have h6432 : (64 : Nat) = 32 + 32 := by norm_num
    rw [h6432, ← List.drop_drop, e32]
    exact List.drop_left' (quoterWord_length _)
  have e64t : (enc.drop 64).take 32 = quoterWord ticksCrossed := by
    rw [e64]; exact List.take_left' (quoterWord_length _)
  have e96 : enc.drop 96 = quoterWord gasEstimate := by
    have hassoc : enc = (quoterWord amountOut ++ quoterWord priceMarker ++
        quoterWord ticksCrossed) ++ quoterWord gasEstimate := by
      simp [henc, List.append_assoc]
    rw [hassoc]
    apply List.drop_left'
    simp [quoterWord_length]
  have e96t : (enc.drop 96).take 32 = quoterWord gasEstimate := by
    rw [e96, List.take_of_length_le (le_of_eq (quoterWord_length _))]
  unfold decodeQuoterPayload
  rw [if_pos hencLen, e0, e32t, e64t, e96t,
    bytesToNatBE_quoterWord amountOut h0,
    bytesToNatBE_quoterWord priceMarker (lt_trans h1 (by norm_num)),
    bytesToNatBE_quoterWord ticksCrossed (lt_trans h2 (by norm_num))]
  rw [if_pos ⟨h1, h2⟩]

/-- C2 (confirmed): when a call made through `resilient_rpc_call` raises a
contract-logic revert whose data payload is a 4-byte selector followed by
the ABI encoding of the Quoter-V2 quadruple
`(amountOut, priceMarker, ticksCrossed, gasEstimate)`, the executor decodes
the payload and returns `amountOut` as a successful result on the first
attempt — no retry, no wait, no propagated failure. -/
theorem claim_C2 (maxRetries : Nat) (backoff : ℚ) (outcomes : Nat → CallOutcome)
    (sel : List Nat) (amountOut priceMarker ticksCrossed gasEstimate : Nat)
    (hm : 1 ≤ maxRetries) (hsel : sel.length = 4)
    (h0 : amountOut < 2 ^ 256) (h1 : priceMarker < 2 ^ 160) (h2 : ticksCrossed < 2 ^ 32)
    (hout : outcomes 0 = .logicRevert (some (sel ++ (quoterWord amountOut ++
      (quoterWord priceMarker ++ (quoterWord ticksCrossed ++ quoterWord gasEstimate)))))) :
    resilient_rpc_call maxRetries backoff outcomes = ⟨1, [], .success amountOut⟩ := by
  obtain ⟨f, rfl⟩ : ∃ f, maxRetries = f + 1 := ⟨maxRetries - 1, by omega⟩
  set enc := quoterWord amountOut ++ (quoterWord priceMarker ++
    (quoterWord ticksCrossed ++ quoterWord gasEstimate)) with henc
  have hencLen : enc.length = 128 := by
    simp [henc, quoterWord_length]
  have hbsLen : (sel ++ enc).length = 132 := by
    simp [hsel, hencLen]
  have hhex : hexStrLen (sel ++ enc) = 266 := by
    rw [hexStrLen, hbsLen]
  have hrdb : revertDataBytes (sel ++ enc) = enc := by
    rw [revertDataBytes, if_pos (by rw [hhex]; norm_num)]
    exact quoterEncoding_drop4 sel enc hsel
  have hlj : ljust128 enc = enc := by
    rw [ljust128, hencLen]
    simp
  refine rpc_first_attempt_decodes f backoff outcomes (sel ++ enc)
    (amountOut, priceMarker, ticksCrossed, bytesToNatBE (quoterWord gasEstimate))
    hout ?_ ?_
  · rw [hhex]; norm_num
  · rw [hrdb, hlj]
    exact decodeQuoterPayload_encoding amountOut priceMarker ticksCrossed gasEstimate
      h0 h1 h2

theorem claim_C2_witness :
    resilient_rpc_call 5 (1 / 2) c2Outcomes = ⟨1, [], .success 123⟩ :=
  claim_C2 5 (1 / 2) c2Outcomes [222, 1, 2, 3] 123 45 6 789 (by norm_num) rfl
    (by norm_num) (by norm_num) (by norm_num) rfl

end Arb

namespace Arb

/-! ## Router resolution: C6 -/

theorem stableInsertDesc_head (x : RouterInfo) (l : List RouterInfo) :
    (stableInsertBy (fun a h => routerSortKey h ≤ routerSortKey a) x l).head? =
      some (match l with
        | [] => x
        | h :: _ => if routerSortKey h ≤ routerSortKey x then x else h) := by
  cases l with
  | nil => rfl
  | cons h t =>
    by_cases hc : routerSortKey h ≤ routerSortKey x
    · simp [stableInsertBy, hc]
    · simp [stableInsertBy, hc]

/-- The head of the stable descending sort is the first-seen maximum. -/
theorem sortRoutersByVersionDesc_head (l : List RouterInfo) :
    (sortRoutersByVersionDesc l).head? = bestByVersionFirstSeen l := by
  induction l with
  | nil => rfl
  | cons x t ih =>
    rw [sortRoutersByVersionDesc, stableSortBy, stableInsertDesc_head]
    cases hs : stableSortBy (fun a h => routerSortKey h ≤ routerSortKey a) t with
    | nil =>
      have hb : bestByVersionFirstSeen t = none := by
        rw [← ih, sortRoutersByVersionDesc, hs]; rfl
      simp [bestByVersionFirstSeen, hb]
    | cons sh st =>
      have hb : bestByVersionFirstSeen t = some sh := by
        rw [← ih, sortRoutersByVersionDesc, hs]; rfl
      simp only [bestByVersionFirstSeen, hb]
      by_cases hc : routerSortKey sh ≤ routerSortKey x
      · rw [if_pos hc, if_neg (not_lt.mpr hc)]
      · rw [if_neg hc, if_pos (lt_of_not_le hc)]

/-- C6 (corrected): `find_router_info` first lowercases and strips the
supplied venue identifier; only then does the claim's resolution rule hold
exactly: an entry matches when the (normalized) identifier equals its key or
the first underscore/hyphen-delimited segment of its key, a unique match is
returned, among several matches the numerically highest `version` wins with
first-seen tie-breaking, and no match yields nothing. -/
theorem claim_C6 (dexId : String) (routers : List (String × RouterInfo)) :
    find_router_info dexId routers = specResolve (pyNormalizeId dexId) routers := by
  unfold find_router_info specResolve
  cases hp : (routers.filter fun kv =>
      pyNormalizeId dexId == kv.1 || pyNormalizeId dexId == firstKeySegment kv.1).map
      Prod.snd with
  | nil => simp [hp, bestByVersionFirstSeen]
  | cons a rest =>
    cases rest with
    | nil => simp [hp, bestByVersionFirstSeen]
    | cons b rest2 =>
      simp only [hp]
      rw [← sortRoutersByVersionDesc_head]

/-- C6 counterexample: the claim's rule, applied to the identifier exactly
as supplied, returns nothing for `"UNISWAP"` against a directory keyed
`"uniswap_v2"`, but the code lowercases the identifier first and returns the
entry. -/
theorem claim_C6_counterexample :
    find_router_info "UNISWAP" c6Dir = some { address := "0xv2", version := some 2 } ∧
    specResolve "UNISWAP" c6Dir = none := by
  constructor <;> rfl

end Arb

namespace Arb

/-! ## V2-style quoting: C7 -/

/-- C7 (confirmed): a V2-style quote calls the router's constant-product
quoting function with the path `[tokenIn, tokenOut]` exactly as provided,
builds the swap on that same path, and sets
`minAmountOut = floor(expectedOut * (1 - slippageTolerancePercent / 100))`
where `expectedOut` is the last element of the quote result.  (Python's
`int(...)` truncates toward zero, which coincides with `floor` here because
the product is non-negative for any tolerance between 0 and 100.) -/
theorem claim_C7 (slippagePct : ℚ) (wallet now amountIn tokenIn tokenOut : Nat)
    (getAmountsOut : Nat → List Nat → List Nat) (lastAmt : Nat)
    (hs1 : slippagePct ≤ 100)
    (hq : (getAmountsOut amountIn [tokenIn, tokenOut]).getLast? = some lastAmt) :
    prepare_uniswap_v2_swap slippagePct wallet now getAmountsOut amountIn
        [tokenIn, tokenOut] =
      some ⟨[tokenIn, tokenOut], getAmountsOut amountIn [tokenIn, tokenOut],
        ⟨amountIn, ⌊(lastAmt : ℚ) * (1 - slippagePct / 100)⌋, [tokenIn, tokenOut],
          wallet, now + 300⟩⟩ := by
  have hs100 : slippagePct / 100 ≤ 1 := (div_le_one (by norm_num)).mpr hs1
  have hnn : (0 : ℚ) ≤ (lastAmt : ℚ) * (1 - slippagePct / 100) :=
    mul_nonneg (Nat.cast_nonneg _) (by linarith)
  simp only [prepare_uniswap_v2_swap, hq, pyTrunc, if_pos hnn]

theorem claim_C7_witness :
    prepare_uniswap_v2_swap 1 9 1000 c7Oracle 100 [11, 22] =
      some ⟨[11, 22], c7Oracle 100 [11, 22],
        ⟨100, ⌊(997 : ℚ) * (1 - 1 / 100)⌋, [11, 22], 9, 1300⟩⟩ :=
  claim_C7 1 9 1000 100 11 22 c7Oracle 997 (by norm_num) rfl

/-! ## V3 fee-tier search: C8 -/

theorem findSome?_ite_eq_find_map {α β : Type} (p : α → Prop) [DecidablePred p]
    (f : α → β) :
    ∀ l : List α, (l.findSome? fun x => if p x then some (f x) else none) =
      (l.find? fun x => decide (p x)).map f := by
  intro l
  induction l with
  | nil => rfl
  | cons a t ih =>
    by_cases hp : p a
    · simp [List.findSome?, List.find?, hp]
    · simp [List.findSome?, List.find?, hp, ih]

/-- C8 (corrected): without a usable provided pool address, the factory
lookup iterates the fee tiers in the order 500, 3000, 10000, 2500, 100
(0.05%, 0.30%, 1%, 0.25%, 0.01%) — not the ascending order the claim states
— and picks the first tier whose factory-returned address is non-zero and
has deployed code (so no single canonical fee tier is ever assumed). -/
theorem claim_C8 (chain : V3Chain) (tokenIn tokenOut : Nat) (pairAddress : Option Nat)
    (h : v3ProvidedPool chain pairAddress = none) :
    v3SelectPool chain tokenIn tokenOut pairAddress =
      (([500, 3000, 10000, 2500, 100] : List Nat).find? fun fee =>
          decide (chain.getPool tokenIn tokenOut fee ≠ 0 ∧
            chain.getCode (chain.getPool tokenIn tokenOut fee) = true)).map
        fun fee => (fee, chain.getPool tokenIn tokenOut fee) := by
  unfold v3SelectPool
  rw [h]
  exact findSome?_ite_eq_find_map
    (fun fee => chain.getPool tokenIn tokenOut fee ≠ 0 ∧
      chain.getCode (chain.getPool tokenIn tokenOut fee) = true)
    (fun fee => (fee, chain.getPool tokenIn tokenOut fee)) FEE_TIERS

theorem claim_C8_witness :
    v3SelectPool c8WitnessChain 1 2 none =
      (([500, 3000, 10000, 2500, 100] : List Nat).find? fun fee =>
          decide (c8WitnessChain.getPool 1 2 fee ≠ 0 ∧
            c8WitnessChain.getCode (c8WitnessChain.getPool 1 2 fee) = true)).map
        fun fee => (fee, c8WitnessChain.getPool 1 2 fee) :=
  claim_C8 c8WitnessChain 1 2 none rfl

/-- C8 counterexample: with live pools at both the 100 and the 500 tiers,
the code picks the 500-tier pool, while the claim's order
(0.01% first) would pick the 100-tier pool. -/
theorem claim_C8_counterexample :
    v3SelectPool c8Chain 1 2 none = some (500, 11) ∧
    specClaimTierSelect c8Chain 1 2 = some (100, 10) := by
  decide

end Arb

namespace Arb

/-! ## Settlement fatal path: C3 -/

theorem swapTopicFor_cases (dexName : String) :
    swapTopicFor dexName = UNISWAP_V3_SWAP_TOPIC ∨
      swapTopicFor dexName = PANCAKE_V3_SWAP_TOPIC := by
  unfold swapTopicFor
  split
  · exact Or.inr rfl
  · exact Or.inl rfl

/-- When no transfer or swap event credits the wallet, the V3 `Swap`-event
path extracts nothing. -/
theorem parseV3SwapAmount_zero (baseCurrency wallet : Nat) (dexName : String)
    (rcpt : Receipt) (h : noWalletCredit wallet rcpt) :
    parseV3SwapAmount baseCurrency wallet (swapTopicFor dexName) rcpt = 0 := by
  unfold parseV3SwapAmount
  cases hpool : rcpt.logs.findSome? (fun log =>
      if log.address = baseCurrency ∧ log.topics.length = 3 ∧
          log.topics.headD 0 = TRANSFER_EVENT_TOPIC ∧
          topicAddr (log.topics.getD 1 0) = wallet
      then some (topicAddr (log.topics.getD 2 0)) else none) with
  | none => rfl
  | some pool =>
    have hswn : (rcpt.logs.findSome? fun log =>
        if log.address = pool ∧ log.topics.headD 0 = swapTopicFor dexName ∧
            log.topics.length = 3 ∧ topicAddr (log.topics.getD 2 0) = wallet ∧
            0 < (min (log.dataWords.getD 0 0) (log.dataWords.getD 1 0)).natAbs
        then some (min (log.dataWords.getD 0 0) (log.dataWords.getD 1 0)).natAbs
        else none) = none := by
      rw [List.findSome?_eq_none_iff]
      intro log hlog
      rw [if_neg]
      rintro ⟨_, h2, h3, h4, _⟩
      refine (h log hlog).2 ?_ h3 h4
      rcases swapTopicFor_cases dexName with hc | hc
      · exact Or.inl (hc ▸ h2)
      · exact Or.inr (hc ▸ h2)
    show (rcpt.logs.findSome? fun log =>
        if log.address = pool ∧ log.topics.headD 0 = swapTopicFor dexName ∧
            log.topics.length = 3 ∧ topicAddr (log.topics.getD 2 0) = wallet ∧
            0 < (min (log.dataWords.getD 0 0) (log.dataWords.getD 1 0)).natAbs
        then some (min (log.dataWords.getD 0 0) (log.dataWords.getD 1 0)).natAbs
        else none).getD 0 = 0
    rw [hswn]
    rfl

/-- When no transfer event credits the wallet, the generic fallback extracts
nothing. -/
theorem parseTransferAmount_zero (wallet targetToken : Nat) (rcpt : Receipt)
    (h : noWalletCredit wallet rcpt) :
    parseTransferAmount wallet targetToken rcpt = 0 := by
  unfold parseTransferAmount
  have hn : (rcpt.logs.findSome? fun log =>
      if log.topics.length = 3 ∧ log.topics.headD 0 = TRANSFER_EVENT_TOPIC ∧
          log.address = targetToken ∧ topicAddr (log.topics.getD 2 0) = wallet
      then some (log.dataWords.getD 0 0).toNat else none) = none := by
    rw [List.findSome?_eq_none_iff]
    intro log hlog
    rw [if_neg]
    rintro ⟨h1, h2, _, h4⟩
    exact (h log hlog).1 h2 h1 h4
  rw [hn]
  rfl

/-- When no transfer or swap event credits the wallet, the settlement parser
extracts nothing. -/
theorem parse_receipt_zero (baseCurrency wallet : Nat) (routerVersion : Int)
    (dexName : String) (targetToken : Nat) (rcpt : Receipt)
    (h : noWalletCredit wallet rcpt) :
    parse_receipt_for_amount_out baseCurrency wallet routerVersion dexName targetToken
      rcpt = 0 := by
  simp only [parse_receipt_for_amount_out,
    parseV3SwapAmount_zero baseCurrency wallet dexName rcpt h, ite_self, if_pos rfl]
  exact parseTransferAmount_zero wallet targetToken rcpt h

theorem prepare_dispatch_effects_cases (leg rt : String) (v : Int) (pa : Option Nat) :
    prepare_dispatch_effects leg rt v pa = [] ∨
      prepare_dispatch_effects leg rt v pa = [.prepareSwap leg] := by
  unfold prepare_dispatch_effects
  split
  · exact Or.inr rfl
  split
  · cases pa
    · exact Or.inl rfl
    · exact Or.inr rfl
  · exact Or.inl rfl

theorem mem_prepare_dispatch_effects_buy (rt : String) (v : Int) (pa : Option Nat) :
    ∀ e ∈ prepare_dispatch_effects "buy" rt v pa, touchesSellLeg e = false := by
  intro e he
  rcases prepare_dispatch_effects_cases "buy" rt v pa with hpe | hpe <;> rw [hpe] at he
  · simp at he
  · simp at he
    subst he
    rfl

/-- Through any branch of the try-block that a parse-nothing receipt allows,
no sell-leg effect happens and no sell payload is built. -/
theorem execute_trade_body_no_sell (cfg : TradeConfig) (w : ChainWorld)
    (buyPool sellPool : PoolRecord) (tok : Nat) (bdn : String)
    (buyInfo sellInfo : RouterInfo)
    (hparse : ∀ v rcpt, w.buyReceiptRes = .ok rcpt →
      parse_receipt_for_amount_out (cfg.baseCurrencyAddress.getD 0)
        (cfg.account.getD 0) v bdn tok rcpt = 0) :
    (execute_trade_body cfg w buyPool sellPool tok bdn buyInfo sellInfo).sellPayload =
      none ∧
    (execute_trade_body cfg w buyPool sellPool tok bdn buyInfo sellInfo).effects.all
      (fun e => !touchesSellLeg e) = true := by
  cases hr : w.buyReceiptRes with
  | error e =>
    unfold execute_trade_body
    simp only [hr]
    repeat' split
    all_goals
      refine ⟨rfl, ?_⟩
      simp only [List.all_append, List.all_cons, List.all_nil, Bool.and_eq_true,
        List.all_eq_true]
      repeat' constructor
      all_goals
        first
        | rfl
        | exact mem_prepare_dispatch_effects_buy _ _ _
        | (intro x hx
           have hb := mem_prepare_dispatch_effects_buy _ _ _ x hx
           simp [touchesSellLeg] at hb ⊢
           simp [hb])
  | ok rcpt =>
    unfold execute_trade_body
    simp only [hr]
    repeat' split
    all_goals
      first
      | exact absurd (hparse _ rcpt hr) (by assumption)
      | (refine ⟨rfl, ?_⟩
         simp only [List.all_append, List.all_cons, List.all_nil, Bool.and_eq_true,
           List.all_eq_true]
         repeat' constructor
         all_goals
           first
           | rfl
           | exact mem_prepare_dispatch_effects_buy _ _ _
           | (intro x hx
              have hb := mem_prepare_dispatch_effects_buy _ _ _ x hx
              simp [touchesSellLeg] at hb ⊢
              simp [hb]))

end Arb

namespace Arb

/-! ## Orchestrator totality: C10 -/

/-- C10 (confirmed): whenever both pool records carry a `'dex'` key,
`execute_trade` returns normally on every path — every pre-flight rejection,
quoting failure, missing-key lookup inside the try-block, reverted or
timed-out leg, and receipt-parsing miss is absorbed by the surrounding
`except Exception` handler, so a failed attempt cannot crash the caller's
polling loop. -/
theorem claim_C10 (cfg : TradeConfig) (w : ChainWorld) (buyPool sellPool : PoolRecord)
    (spread : ℚ) (tok : Nat)
    (hb : buyPool.dex.isSome = true) (hs : sellPool.dex.isSome = true) :
    (execute_trade cfg w buyPool sellPool spread tok).outcome = .normalReturn := by
  obtain ⟨bd, hbd⟩ := Option.isSome_iff_exists.mp hb
  obtain ⟨sd, hsd⟩ := Option.isSome_iff_exists.mp hs
  unfold execute_trade
  split
  · rfl
  · simp only [hbd, hsd]
    cases find_router_info bd cfg.dexRouters <;>
      cases find_router_info sd cfg.dexRouters <;> rfl

theorem claim_C10_witness :
    (execute_trade exCfg exWorld exBuyPool exSellPool 0 5).outcome =
      ExecOutcome.normalReturn :=
  claim_C10 exCfg exWorld exBuyPool exSellPool 0 5 rfl rfl

/-! ## Settlement fatal path, orchestrator level: C3 -/

/-- C3 (confirmed): when the confirmed buy receipt contains no swap event
and no transfer event naming the trading wallet as recipient, the settlement
parser extracts nothing, and `execute_trade` returns normally with no
sell-leg action at all: no sell payload is built and no sell-leg prepare,
build, submit or wait effect occurs. -/
theorem claim_C3 (cfg : TradeConfig) (w : ChainWorld) (buyPool sellPool : PoolRecord)
    (spread : ℚ) (tokenAddress : Nat)
    (hb : buyPool.dex.isSome = true) (hs : sellPool.dex.isSome = true)
    (hrcpt : ∀ rcpt, w.buyReceiptRes = .ok rcpt →
      noWalletCredit (cfg.account.getD 0) rcpt) :
    (execute_trade cfg w buyPool sellPool spread tokenAddress).sellPayload = none ∧
    (execute_trade cfg w buyPool sellPool spread tokenAddress).outcome =
      .normalReturn ∧
    (execute_trade cfg w buyPool sellPool spread tokenAddress).effects.all
      (fun e => !touchesSellLeg e) = true := by
  obtain ⟨bd, hbd⟩ := Option.isSome_iff_exists.mp hb
  obtain ⟨sd, hsd⟩ := Option.isSome_iff_exists.mp hs
  unfold execute_trade
  split
  · exact ⟨rfl, rfl, rfl⟩
  · simp only [hbd, hsd]
    cases find_router_info bd cfg.dexRouters with
    | none => exact ⟨rfl, rfl, rfl⟩
    | some buyInfo =>
      cases find_router_info sd cfg.dexRouters with
      | none => exact ⟨rfl, rfl, rfl⟩
      | some sellInfo =>
        obtain ⟨h1, h2⟩ := execute_trade_body_no_sell cfg w buyPool sellPool
          tokenAddress bd buyInfo sellInfo
          (fun v rcpt hr => parse_receipt_zero (cfg.baseCurrencyAddress.getD 0)
            (cfg.account.getD 0) v bd tokenAddress rcpt (hrcpt rcpt hr))
        exact ⟨h1, rfl, h2⟩

theorem claim_C3_witness :
    (execute_trade exCfg c3World exBuyPool exSellPool 0 5).sellPayload = none ∧
    (execute_trade exCfg c3World exBuyPool exSellPool 0 5).outcome =
      ExecOutcome.normalReturn ∧
    (execute_trade exCfg c3World exBuyPool exSellPool 0 5).effects.all
      (fun e => !touchesSellLeg e) = true :=
  claim_C3 exCfg c3World exBuyPool exSellPool 0 5 rfl rfl
    (by intro rcpt h
        have hc : c3World.buyReceiptRes = Except.ok c3Receipt := rfl
        rw [hc] at h
        injection h with h
        subst h
        unfold noWalletCredit
        decide)

end Arb

namespace Arb

/-! ## Liquidity-impact guard: C9 -/

/-- If the notional exceeds 10% of either pool's reported liquidity, the
try-block stops right after the two wallet-balance reads: nothing further
happens, in particular no swap is prepared, built or submitted. -/
theorem execute_trade_body_liquidity_reject (cfg : TradeConfig) (w : ChainWorld)
    (buyPool sellPool : PoolRecord) (tok : Nat) (bdn : String)
    (buyInfo sellInfo : RouterInfo) (bl sl : ℚ)
    (hbl : buyPool.liqUsd = some bl) (hsl : sellPool.liqUsd = some sl)
    (hover : cfg.tradeAmountBaseToken * (buyPool.baseCurrencyPriceUsd.getD 0) >
        bl * LIQUIDITY_IMPACT_THRESHOLD ∨
      cfg.tradeAmountBaseToken * (buyPool.baseCurrencyPriceUsd.getD 0) >
        sl * LIQUIDITY_IMPACT_THRESHOLD) :
    execute_trade_body cfg w buyPool sellPool tok bdn buyInfo sellInfo =
      ⟨[.rpcRead "decimals", .rpcRead "balanceOf"], none, none, none⟩ := by
  unfold execute_trade_body
  simp only [hbl, hsl]
  split
  · rfl
  split
  · rfl
  split
  · rfl
  split
  · rfl
  rename_i hnb hns
  rcases hover with hov | hov
  · exact absurd hov hnb
  · exact absurd hov hns

/-- C9 (corrected): a trade whose USD notional exceeds 10% of either venue's
reported liquidity is rejected at pre-flight — no swap is prepared, no
transaction is built or submitted, and the attempt returns normally — but
the rejection is NOT made with zero on-chain calls: the two wallet-balance
reads (`decimals()` and `balanceOf()`) have already been performed when the
liquidity check runs, and they are exactly the attempt's effects. -/
theorem claim_C9 (cfg : TradeConfig) (w : ChainWorld) (buyPool sellPool : PoolRecord)
    (spread : ℚ) (tok : Nat) (bd sd : String) (bi si : RouterInfo) (bl sl : ℚ)
    (hbd : buyPool.dex = some bd) (hsd : sellPool.dex = some sd)
    (hconf : cfg.account.isSome ∧ cfg.baseCurrencyAddress.isSome ∧
      0 < cfg.tradeAmountBaseToken)
    (hrb : find_router_info bd cfg.dexRouters = some bi)
    (hrs : find_router_info sd cfg.dexRouters = some si)
    (hbl : buyPool.liqUsd = some bl) (hsl : sellPool.liqUsd = some sl)
    (hover : cfg.tradeAmountBaseToken * (buyPool.baseCurrencyPriceUsd.getD 0) >
        bl * LIQUIDITY_IMPACT_THRESHOLD ∨
      cfg.tradeAmountBaseToken * (buyPool.baseCurrencyPriceUsd.getD 0) >
        sl * LIQUIDITY_IMPACT_THRESHOLD) :
    execute_trade cfg w buyPool sellPool spread tok =
      ⟨[.rpcRead "decimals", .rpcRead "balanceOf"], none, none, .normalReturn⟩ := by
  unfold execute_trade
  rw [if_neg (not_not_intro hconf)]
  simp only [hbd, hsd, hrb, hrs,
    execute_trade_body_liquidity_reject cfg w buyPool sellPool tok bd bi si bl sl
      hbl hsl hover]

theorem claim_C9_witness :
    execute_trade exCfg exWorld c9BuyPool exSellPool 0 5 =
      ⟨[.rpcRead "decimals", .rpcRead "balanceOf"], none, none,
        ExecOutcome.normalReturn⟩ :=
  claim_C9 exCfg exWorld c9BuyPool exSellPool 0 5 "dexa" "dexb"
    { address := "0xa", version := some 2 } { address := "0xb", version := some 2 }
    300 1000 rfl rfl ⟨rfl, rfl, by norm_num [exCfg]⟩ rfl rfl rfl rfl
    (Or.inl (by norm_num [exCfg, c9BuyPool, LIQUIDITY_IMPACT_THRESHOLD]))

/-- C9 counterexample: on a liquidity-rejected attempt the effect trace is
not empty — the two wallet-balance RPC reads were performed before the
rejection, falsifying "zero on-chain calls"; the trade size (1 base token at
50 USD) exceeds 10% of the buy pool's 300 USD liquidity. -/
theorem claim_C9_counterexample :
    (execute_trade exCfg exWorld c9BuyPool exSellPool 0 5).effects =
      [.rpcRead "decimals", .rpcRead "balanceOf"] ∧
    (execute_trade exCfg exWorld c9BuyPool exSellPool 0 5).effects ≠ [] ∧
    (execute_trade exCfg exWorld c9BuyPool exSellPool 0 5).buyPayload = none ∧
    (execute_trade exCfg exWorld c9BuyPool exSellPool 0 5).sellPayload = none ∧
    exCfg.tradeAmountBaseToken * (c9BuyPool.baseCurrencyPriceUsd.getD 0) >
      (300 : ℚ) * LIQUIDITY_IMPACT_THRESHOLD := by
  refine ⟨?_, ?_, ?_, ?_, ?_⟩
  · with_unfolding_all rfl
  · intro h
    rw [show (execute_trade exCfg exWorld c9BuyPool exSellPool 0 5).effects =
      [.rpcRead "decimals", .rpcRead "balanceOf"] by with_unfolding_all rfl] at h
    cases h
  · with_unfolding_all rfl
  · with_unfolding_all rfl
  · norm_num [exCfg, c9BuyPool, LIQUIDITY_IMPACT_THRESHOLD]

/-! ## Per-leg nonce and fee freshness: C4 -/

/-- Whenever both leg payloads exist, each leg's nonce came from its own
fetch, while both fee fields of the sell payload are the values computed
from the fetches made before the buy leg. -/
theorem execute_trade_body_payloads (cfg : TradeConfig) (w : ChainWorld)
    (buyPool sellPool : PoolRecord) (tok : Nat) (bdn : String)
    (buyInfo sellInfo : RouterInfo) (bp sp : TxPayload)
    (hb : (execute_trade_body cfg w buyPool sellPool tok bdn buyInfo sellInfo).buyPayload
      = some bp)
    (hs : (execute_trade_body cfg w buyPool sellPool tok bdn buyInfo
      sellInfo).sellPayload = some sp) :
    bp.nonce = w.nonceFetch 0 ∧ sp.nonce = w.nonceFetch 1 ∧
    bp.maxPriorityFeePerGas = w.priorityFeeFetch 0 ∧
    bp.maxFeePerGas = w.baseFeeFetch 0 * 2 + w.priorityFeeFetch 0 ∧
    sp.maxFeePerGas = bp.maxFeePerGas ∧
    sp.maxPriorityFeePerGas = bp.maxPriorityFeePerGas := by
  revert hb hs
  simp only [execute_trade_body]
  repeat' split
  all_goals intro hb hs
  all_goals
    first
    | (simp at hs; done)
    | (simp at hb hs
       subst hb
       subst hs
       exact ⟨rfl, rfl, rfl, rfl, rfl, rfl⟩)

/-- C4 (corrected): the nonce is indeed fetched fresh immediately before
each leg's submission (the buy uses the first nonce fetch, the sell the
second), but the fee parameters are NOT: `maxFeePerGas` and
`maxPriorityFeePerGas` are fetched once, before the buy leg, and the sell
transaction reuses exactly the buy leg's values. -/
theorem claim_C4 (cfg : TradeConfig) (w : ChainWorld) (buyPool sellPool : PoolRecord)
    (spread : ℚ) (tok : Nat) (bp sp : TxPayload)
    (hb : (execute_trade cfg w buyPool sellPool spread tok).buyPayload = some bp)
    (hs : (execute_trade cfg w buyPool sellPool spread tok).sellPayload = some sp) :
    bp.nonce = w.nonceFetch 0 ∧ sp.nonce = w.nonceFetch 1 ∧
    bp.maxPriorityFeePerGas = w.priorityFeeFetch 0 ∧
    bp.maxFeePerGas = w.baseFeeFetch 0 * 2 + w.priorityFeeFetch 0 ∧
    sp.maxFeePerGas = bp.maxFeePerGas ∧
    sp.maxPriorityFeePerGas = bp.maxPriorityFeePerGas := by
  revert hb hs
  simp only [execute_trade]
  repeat' split
  all_goals intro hb hs
  all_goals
    first
    | (simp at hs; done)
    | exact execute_trade_body_payloads _ _ _ _ _ _ _ _ _ _ hb hs

theorem claim_C4_witness :
    (⟨0, 210, 10, 8453, 500000⟩ : TxPayload).nonce = exWorld.nonceFetch 0 ∧
    (⟨1, 210, 10, 8453, 500000⟩ : TxPayload).nonce = exWorld.nonceFetch 1 ∧
    (⟨0, 210, 10, 8453, 500000⟩ : TxPayload).maxPriorityFeePerGas =
      exWorld.priorityFeeFetch 0 ∧
    (⟨0, 210, 10, 8453, 500000⟩ : TxPayload).maxFeePerGas =
      exWorld.baseFeeFetch 0 * 2 + exWorld.priorityFeeFetch 0 ∧
    (⟨1, 210, 10, 8453, 500000⟩ : TxPayload).maxFeePerGas =
      (⟨0, 210, 10, 8453, 500000⟩ : TxPayload).maxFeePerGas ∧
    (⟨1, 210, 10, 8453, 500000⟩ : TxPayload).maxPriorityFeePerGas =
      (⟨0, 210, 10, 8453, 500000⟩ : TxPayload).maxPriorityFeePerGas :=
  claim_C4 exCfg exWorld exBuyPool exSellPool 0 5 ⟨0, 210, 10, 8453, 500000⟩
    ⟨1, 210, 10, 8453, 500000⟩ (by with_unfolding_all rfl) (by with_unfolding_all rfl)

/-- C4 counterexample: in a world where a fresh priority-fee fetch at sell
time would return 99 and a fresh base-fee fetch 7777, the sell payload still
carries the buy-time values (10 and 210), and the whole run performs exactly
one priority-fee fetch and one block fetch — the sell leg's fee parameters
are reused, not freshly fetched. -/
theorem claim_C4_counterexample :
    (execute_trade exCfg exWorld exBuyPool exSellPool 0 5).sellPayload =
      some ⟨1, 210, 10, 8453, 500000⟩ ∧
    exWorld.priorityFeeFetch 1 = 99 ∧
    exWorld.baseFeeFetch 1 * 2 + exWorld.priorityFeeFetch 1 = 15653 ∧
    (10 : Nat) ≠ 99 ∧ (210 : Nat) ≠ 15653 ∧
    (execute_trade exCfg exWorld exBuyPool exSellPool 0 5).effects.count
      (Effect.rpcRead "max_priority_fee") = 1 ∧
    (execute_trade exCfg exWorld exBuyPool exSellPool 0 5).effects.count
      (Effect.rpcRead "get_block") = 1 := by
  refine ⟨?_, rfl, rfl, by decide, by decide, ?_, ?_⟩
  · with_unfolding_all rfl
  · with_unfolding_all rfl
  · with_unfolding_all rfl

end Arb

namespace Arb

/-! ## Cooldown contract: C5 -/

/-- main.py `execute_trade` either starts no attempt and leaves the state
untouched, or starts one and stamps the cooldown state with the start time. -/
theorem main_execute_trade_spec (cfg : MainConfig) (tStart : ℚ)
    (buyPool sellPool : MainPool) (st : BotState) :
    main_execute_trade cfg tStart buyPool sellPool st = (st, false) ∨
    main_execute_trade cfg tStart buyPool sellPool st = (⟨tStart⟩, true) := by
  unfold main_execute_trade
  split
  · exact Or.inl rfl
  · split
    · exact Or.inr rfl
    · exact Or.inl rfl

theorem analyze_and_trade_spec (cfg : MainConfig) (tCheck tStart : ℚ)
    (pairs : List MainPool) (st : BotState) :
    analyze_and_trade cfg tCheck tStart pairs st = (st, false) ∨
    analyze_and_trade cfg tCheck tStart pairs st = (⟨tStart⟩, true) := by
  simp only [analyze_and_trade]
  repeat' split
  all_goals
    first
    | exact Or.inl rfl
    | exact main_execute_trade_spec _ _ _ _ _

/-- C5 (confirmed): (i) an evaluation call made within
`TRADE_COOLDOWN_SECONDS` of the last attempt's start returns without
starting an attempt and without touching the state; (ii) the cooldown
timestamp is written exactly when an attempt starts — a started call stamps
it with the attempt's start time, a non-starting call leaves the state
unchanged; (iii) once the window has elapsed a call is eligible to start an
attempt (witnessed by a fully configured setup with two liquid pools and a
100% spread, where every post-window call starts one). -/
theorem claim_C5 :
    (∀ (cfg : MainConfig) (tCheck tStart : ℚ) (pairs : List MainPool) (st : BotState),
      tCheck - st.lastTradeAttemptTs < TRADE_COOLDOWN_SECONDS →
        analyze_and_trade cfg tCheck tStart pairs st = (st, false)) ∧
    (∀ (cfg : MainConfig) (tCheck tStart : ℚ) (pairs : List MainPool)
        (st st' : BotState) (started : Bool),
      analyze_and_trade cfg tCheck tStart pairs st = (st', started) →
        (started = true → st'.lastTradeAttemptTs = tStart) ∧
        (started = false → st' = st)) ∧
    (∀ (st : BotState) (tCheck tStart : ℚ),
      TRADE_COOLDOWN_SECONDS ≤ tCheck - st.lastTradeAttemptTs →
        (analyze_and_trade c5Cfg tCheck tStart c5Pairs st).2 = true) := by
  refine ⟨?_, ?_, ?_⟩
  · intro cfg tCheck tStart pairs st h
    unfold analyze_and_trade
    rw [if_pos h]
  · intro cfg tCheck tStart pairs st st' started h
    rcases analyze_and_trade_spec cfg tCheck tStart pairs st with he | he <;>
      rw [h] at he
    · injection he with h1 h2
      subst h1
      subst h2
      exact ⟨fun hT => Bool.noConfusion hT, fun _ => rfl⟩
    · injection he with h1 h2
      subst h1
      subst h2
      exact ⟨fun _ => rfl, fun hF => Bool.noConfusion hF⟩
  · intro st tCheck tStart h
    unfold analyze_and_trade
    rw [if_neg (not_lt.mpr h)]
    with_unfolding_all rfl

end Arb

namespace Arb

theorem claim_C5_witness :
    analyze_and_trade c5Cfg 10 11 c5Pairs ⟨0⟩ = (⟨0⟩, false) ∧
    (analyze_and_trade c5Cfg 100 101 c5Pairs ⟨0⟩).2 = true :=
  ⟨claim_C5.1 c5Cfg 10 11 c5Pairs ⟨0⟩ (by norm_num [TRADE_COOLDOWN_SECONDS]),
   claim_C5.2.2 ⟨0⟩ 100 101 (by norm_num [TRADE_COOLDOWN_SECONDS])⟩

end Arb
